import Mathlib

/-!
Shallow embedding of the capital-city scraper (src/index.ts).

The program navigates a list page of European countries, follows each
country's page to find its capital link, then extracts area, population
and a flag-image reference from the capital's page.  The DOM fragments the
code queries are embedded as explicit Lean structures; the browser is a
total map from URLs to documents; the scraper's mutable page handle is an
explicit state record threaded through the functions.
-/

namespace Scraper

/-! ## JavaScript string primitives -/

/-- Character class of the JS regex `\s` (WhiteSpace plus LineTerminator),
also the set trimmed by `String.prototype.trim` and skipped by `parseFloat`. -/
def jsWsChar (c : Char) : Bool :=
  c = ' ' || c = '\t' || c = '\n' || c = '\r' || c = '\x0b' || c = '\x0c' ||
  c = '\u00a0' || c = '\u1680' || (0x2000 ≤ c.toNat && c.toNat ≤ 0x200a) ||
  c = '\u2028' || c = '\u2029' || c = '\u202f' || c = '\u205f' ||
  c = '\u3000' || c = '\ufeff'

/-- JS line terminators: the characters a non-dotall `.` does not match. -/
def lineTermChar (c : Char) : Bool :=
  c = '\n' || c = '\r' || c = '\u2028' || c = '\u2029'

/-- Does `l` start with `p`? (helper for substring search). -/
def startsWith' : List Char → List Char → Bool
  | _, [] => true
  | [], _ :: _ => false
  | a :: as, b :: bs => a = b && startsWith' as bs

/-- Substring occurrence test on character lists. -/
def containsSeq : List Char → List Char → Bool
  | [], needle => needle.isEmpty
  | a :: as, needle => startsWith' (a :: as) needle || containsSeq as needle

/-- `s.includes(sub)` of JS: substring containment. -/
def textIncludes (s sub : String) : Bool :=
  containsSeq s.toList sub.toList

/-- `s.trim()` of JS: strip `jsWsChar` characters from both ends. -/
def jsTrim (s : String) : String :=
  String.mk (((s.toList.dropWhile jsWsChar).reverse.dropWhile jsWsChar).reverse)

/-- `s.replace(/,/g, '')`: delete every comma. -/
def stripCommas (s : String) : String :=
  String.mk (s.toList.filter (fun c => !(c = ',')))

/-! ## JavaScript numbers

`parseFloat` parses the longest decimal-literal prefix.  The result is kept
as an exact signed decimal `±mant × 10^exp`; IEEE-754 double rounding and
shortest-round-trip printing agree with this exact model on every value this
development evaluates (plain integers far below 2^53). -/

/-- A JS number as produced by `parseFloat`: NaN, a signed infinity, or an
exact decimal value `±mant × 10^exp`. -/
inductive JSNum where
  | nan : JSNum
  | inf : Bool → JSNum
  | finite : Bool → Nat → Int → JSNum

deriving instance DecidableEq, Repr for JSNum

/-- Decimal digits to a natural number. -/
def digitsToNat (ds : List Char) : Nat :=
  ds.foldl (fun n c => 10 * n + (c.toNat - 48)) 0

/-- Parse an exponent part (after the `e`/`E`): optional sign then digits;
`none` when no digit follows, in which case `parseFloat` ignores the `e`. -/
def parseExp (cs : List Char) : Option Int :=
  let p : Bool × List Char :=
    match cs with
    | '-' :: t => (true, t)
    | '+' :: t => (false, t)
    | _ => (false, cs)
  let ds := p.2.takeWhile Char.isDigit
  if ds.isEmpty then none
  else some (if p.1 then -(digitsToNat ds : Int) else (digitsToNat ds : Int))

/-- `parseFloat(s)`: skip whitespace, optional sign, then `Infinity` or
digits with optional fraction and exponent; NaN when no digits are found. -/
def jsParseFloat (s : String) : JSNum :=
  let cs0 := s.toList.dropWhile jsWsChar
  let sgn : Bool × List Char :=
    match cs0 with
    | '-' :: t => (true, t)
    | '+' :: t => (false, t)
    | _ => (false, cs0)
  let neg := sgn.1
  let cs := sgn.2
  if startsWith' cs ("Infinity".toList) then JSNum.inf neg
  else
    let ints := cs.takeWhile Char.isDigit
    let cs1 := cs.dropWhile Char.isDigit
    let fr : List Char × List Char :=
      match cs1 with
      | '.' :: t => (t.takeWhile Char.isDigit, t.dropWhile Char.isDigit)
      | _ => ([], cs1)
    let fracs := fr.1
    let cs2 := fr.2
    if ints.isEmpty && fracs.isEmpty then JSNum.nan
    else
      let e10 : Int :=
        (match cs2 with
         | 'e' :: t => (parseExp t).getD 0
         | 'E' :: t => (parseExp t).getD 0
         | _ => 0) - fracs.length
      JSNum.finite neg (digitsToNat (ints ++ fracs)) e10

/-- `Number.prototype.toString` on an exact decimal `±m × 10^e` (ECMA
ToString of a number): plain digits, fixed point, small-fraction form, or
exponent form, after normalising trailing zeros into the exponent. -/
def jsFiniteToString (neg : Bool) (m : Nat) (e : Int) : String :=
  if m = 0 then "0"
  else
    let ds0 := (toString m).toList
    let z := (ds0.reverse.takeWhile (fun c => c = '0')).length
    let ds := ds0.take (ds0.length - z)
    let e1 := e + z
    let k : Int := (ds.length : Int)
    let n : Int := k + e1
    let body : List Char :=
      if k ≤ n && n ≤ 21 then ds ++ List.replicate (n - k).toNat '0'
      else if 0 < n && n ≤ 21 then ds.take n.toNat ++ '.' :: ds.drop n.toNat
      else if -6 < n && n ≤ 0 then '0' :: '.' :: (List.replicate (-n).toNat '0' ++ ds)
      else
        let mantPart : List Char :=
          match ds with
          | [] => []
          | [d] => [d]
          | d :: rest => d :: '.' :: rest
        mantPart ++ 'e' :: (if 0 ≤ n - 1 then '+' else '-') :: (toString (n - 1).natAbs).toList
    String.mk (if neg then '-' :: body else body)

/-- String form of a JS number (`value.toString()`), NaN included. -/
def jsNumToString : JSNum → String
  | JSNum.nan => "NaN"
  | JSNum.inf neg => if neg then "-Infinity" else "Infinity"
  | JSNum.finite neg m e => jsFiniteToString neg m e

/-! ## The two value-shape regexes

`areaRegex = /^[0-9,.]+\s+km2.*$/` and
`populationRegex = /^[0-9,.]+(\s+\(.*\))?$/`, compiled to decidable string
tests.  Both character classes `[0-9,.]` and `\s` are disjoint, so the
greedy matches need no backtracking; `.` excludes line terminators and `$`
(no `m` flag) is end of input. -/

/-- The character class `[0-9,.]`. -/
def numChar (c : Char) : Bool :=
  c.isDigit || c = ',' || c = '.'

/-- Test of the area regex: digits/commas/dots, whitespace, the token
`km2`, then any characters without a line terminator up to the end. -/
def areaTest (s : String) : Bool :=
  let cs := s.toList
  let num := cs.takeWhile numChar
  let r1 := cs.dropWhile numChar
  let sp := r1.takeWhile jsWsChar
  let r2 := r1.dropWhile jsWsChar
  !num.isEmpty && !sp.isEmpty && startsWith' r2 ("km2".toList) &&
    (r2.drop 3).all (fun c => !lineTermChar c)

/-- Test of the population regex: digits/commas/dots, then optionally
whitespace and a parenthesised annotation reaching the end of input. -/
def populationTest (s : String) : Bool :=
  let cs := s.toList
  let num := cs.takeWhile numChar
  let r := cs.dropWhile numChar
  !num.isEmpty &&
    (r.isEmpty ||
      (let sp := r.takeWhile jsWsChar
       let r2 := r.dropWhile jsWsChar
       !sp.isEmpty &&
         match r2 with
         | [] => false
         | c :: rest =>
             c = '(' && !rest.isEmpty && rest.getLast? = some ')' &&
               rest.dropLast.all (fun x => !lineTermChar x)))

/-! ## The infobox row model

`getValueByLabel` looks at table rows: each row carries the
`mergedtoprow` class marker (true on rows starting a top-level infobox
section), the text contents of its `th` header cells, and the text
contents of its `td` data cells.  A document region is the sibling row
sequence in document order. -/

/-- One `tr` of the capital page's infobox, as seen by `getValueByLabel`. -/
structure Row where
  mergedtoprow : Bool
  ths : List String
  tds : List String

deriving instance DecidableEq, Repr for Row

/-- The sibling walk of the source: collect following rows until one
carrying the `mergedtoprow` class is reached (exclusive) or rows run out. -/
def walkRows : List Row → List Row
  | [] => []
  | r :: rest => if r.mergedtoprow then [] else r :: walkRows rest

/-- Indices of rows selected by `querySelectorAll('.mergedtoprow th')`
filtered to header cells whose text includes `label`, one entry per
matching `th` (the source maps each matching `th` to its parent row). -/
def selectedHeaderRows (doc : List Row) (label : String) : List Nat :=
  (List.range doc.length).flatMap (fun i =>
    match doc[i]? with
    | some row =>
        if row.mergedtoprow then
          (row.ths.filter (fun t => textIncludes t label)).map (fun _ => i)
        else []
    | none => [])

/-- The block of one selected header row: the row itself followed by the
sibling walk (`acc.concat(row, nextRows)` of the source's reduce step). -/
def blockAt (doc : List Row) (i : Nat) : List Row :=
  match doc.drop i with
  | [] => []
  | r :: rest => r :: walkRows rest

/-- The `reduce` of the source: all blocks of all selected header rows,
concatenated in selection order. -/
def collectRows (doc : List Row) (label : String) : List Row :=
  (selectedHeaderRows doc label).foldl (fun acc i => acc ++ blockAt doc i) []

/-- All data cells of the collected blocks, flattened in order
(`rows.map(... querySelectorAll('td')).flat()`). -/
def flatCells (doc : List Row) (label : String) : List String :=
  ((collectRows doc label).map Row.tds).flatten

/-- `getValueByLabel` of the source: find the blocks under headers
containing `label`, take the first data cell whose trimmed text passes
`regex`, strip commas, `parseFloat` it and render the number
(`value?.toString()` — `undefined` only when no cell matched or the
matched trimmed text was empty). -/
def getValueByLabel (doc : List Row) (label : String) (regex : String → Bool) :
    Option String :=
  let values := (flatCells doc label).filter (fun td => regex (jsTrim td))
  let valueText : String :=
    match values.head? with
    | some td => jsTrim td
    | none => ""
  let value : Option JSNum :=
    if valueText = "" then none else some (jsParseFloat (stripCommas valueText))
  value.map jsNumToString

/-- `getArea` of the source. -/
def getArea (doc : List Row) : Option String :=
  getValueByLabel doc "Area" areaTest

/-- `getPopulation` of the source. -/
def getPopulation (doc : List Row) : Option String :=
  getValueByLabel doc "Population" populationTest

/-! ## The country-page and list-page fragments -/

/-- An anchor element: its rendered text and its (absolute) href. -/
structure Anchor where
  text : String
  href : String

deriving instance DecidableEq, Repr for Anchor

/-- One `tr` of a country page's infobox
(`querySelectorAll('.infobox.ib-country.vcard tr')`): its whole text
content and the first anchor of its `.infobox-data` cell, if any. -/
structure CRow where
  text : String
  dataAnchor : Option Anchor

deriving instance DecidableEq, Repr for CRow

/-- The capital-link extraction of the source: filter the infobox rows for
a text containing "Capital", map each to the first anchor of its data cell
(possibly null), and take the first non-null anchor. -/
def capitalCityLink (rows : List CRow) : Option Anchor :=
  let filtered := rows.filter (fun tr => textIncludes tr.text "Capital")
  let mapped := filtered.map (fun tr => tr.dataAnchor)
  match mapped.find? (fun l => l.isSome) with
  | some l => l
  | none => none

/-- A fetched, rendered page, restricted to the four queries the scraper
runs against it: the country-list anchors
(`'table.wikitable tbody tr td:nth-child(2) > a'`), the country infobox
rows, the capital infobox sibling-row region, and the flag image source. -/
structure Document where
  countryAnchors : List Anchor
  countryRows : List CRow
  cityRows : List Row
  flagImgSrc : Option String

/-- The browser as seen by the scraper: a total map from a URL to the
document obtained by navigating there.  Fixing one `World` is the
fixed-fixture setting of the specification. -/
structure World where
  pages : String → Document

/-! ## The scraper records and state -/

/-- The `Country` interface of the source. -/
structure Country where
  countryName : String
  countryUrl : String

deriving instance DecidableEq, Repr for Country

/-- The `City` interface of the source. -/
structure City where
  cityName : String
  cityUrl : String
  country : Option String

deriving instance DecidableEq, Repr for City

/-- The `CityDetails` interface of the source (optional fields are
`Option`; `undefined` is `none`). -/
structure CityDetails where
  name : String
  url : String
  country : Option String
  area : Option String
  population : Option String
  flagIconPath : Option String

deriving instance DecidableEq, Repr for CityDetails

/-- The scraper's mutable state: the private `page` handle, `none` before
`init`, otherwise the URL the page currently shows.  (The browser handle
never influences any output and is not carried.) -/
structure ScraperState where
  pageUrl : Option String

deriving instance DecidableEq, Repr for ScraperState

/-- The fixed `startUrl` of the class. -/
def startUrl : String :=
  "https://en.wikipedia.org/wiki/List_of_European_countries_by_area"

/-- `init()`: (launch the browser and open a page if needed, then)
navigate to `startUrl`.  Whatever the previous state, the page afterwards
shows `startUrl`. -/
def initScraper (_s : ScraperState) : ScraperState :=
  ⟨some startUrl⟩

/-! ## The traversal controller -/

/-- `scrapeCityDetails`: throws if the page is not initialized; otherwise
navigates to the capital's page, reads flag, area and population, and
returns the singleton list of the assembled record (the source returns
`null` only for an empty list, which this path never produces). -/
def scrapeCityDetails (w : World) (s : ScraperState) (capitalCity : City)
    (country : Country) :
    Except String (Option (List CityDetails) × ScraperState) :=
  match s.pageUrl with
  | none => Except.error "Page is not initialized."
  | some _ =>
      let s1 : ScraperState := ⟨some capitalCity.cityUrl⟩
      let doc := w.pages capitalCity.cityUrl
      let details : CityDetails :=
        ⟨capitalCity.cityName, capitalCity.cityUrl, some country.countryName,
          getArea doc.cityRows, getPopulation doc.cityRows, doc.flagImgSrc⟩
      Except.ok (some [details], s1)

/-- The countries extracted from the currently shown page
(`countriesList` of the source). -/
def buildCountries (doc : Document) : List Country :=
  doc.countryAnchors.map (fun a => ⟨a.text, a.href⟩)

/-- The per-country loop body of `scrapeCountries`: navigate to the
country page, extract the capital link; on success scrape the capital's
details and append them, otherwise continue with the next country. -/
def scrapeLoop (w : World) :
    List Country → ScraperState → List CityDetails →
    Except String (List CityDetails × ScraperState)
  | [], s, acc => Except.ok (acc, s)
  | country :: rest, _, acc =>
      let s1 : ScraperState := ⟨some country.countryUrl⟩
      let cdoc := w.pages country.countryUrl
      match capitalCityLink cdoc.countryRows with
      | none => scrapeLoop w rest s1 acc
      | some link =>
          match scrapeCityDetails w s1 ⟨link.text, link.href, none⟩ country with
          | Except.error e => Except.error e
          | Except.ok (od, s2) =>
              match od with
              | none => scrapeLoop w rest s2 acc
              | some ds => scrapeLoop w rest s2 (acc ++ ds)

/-- `scrapeCountries`: throws if the page is not initialized; otherwise
reads the country list off the currently shown page and runs the loop. -/
def scrapeCountries (w : World) (s : ScraperState) :
    Except String (List CityDetails × ScraperState) :=
  match s.pageUrl with
  | none => Except.error "Page is not initialized."
  | some u => scrapeLoop w (buildCountries (w.pages u)) s []

/-- One full run as the main program performs it: `init()` then
`scrapeCountries()`. -/
def runScrape (w : World) (s : ScraperState) :
    Except String (List CityDetails × ScraperState) :=
  scrapeCountries w (initScraper s)

/-! ## Specification-side descriptions used in the theorems -/

/-- The record the scraper assembles for a capital city. -/
def cityDetailsOf (w : World) (capitalCity : City) (country : Country) :
    CityDetails :=
  ⟨capitalCity.cityName, capitalCity.cityUrl, some country.countryName,
    getArea (w.pages capitalCity.cityUrl).cityRows,
    getPopulation (w.pages capitalCity.cityUrl).cityRows,
    (w.pages capitalCity.cityUrl).flagImgSrc⟩

/-- The record one country contributes, if its page yields a capital
link. -/
def countryRecord (w : World) (country : Country) : Option CityDetails :=
  (capitalCityLink (w.pages country.countryUrl).countryRows).map
    (fun link => cityDetailsOf w ⟨link.text, link.href, none⟩ country)

/-! ## Helper lemmas -/

/-- The head of a filtered list is the first element passing the test. -/
theorem head?_filter_eq_find? (p : α → Bool) (l : List α) :
    (l.filter p).head? = l.find? p := by
  induction l with
  | nil => rfl
  | cons a t ih =>
      by_cases h : p a <;> simp [List.filter_cons, List.find?_cons, h, ih]

/-- A left fold that appends block after block is a single flat map. -/
theorem foldl_append_eq_flatMap (f : α → List β) :
    ∀ (l : List α) (a : List β),
      l.foldl (fun acc i => acc ++ f i) a = a ++ l.flatMap f := by
  intro l
  induction l with
  | nil => intro a; simp
  | cons x t ih => intro a; simp [List.foldl_cons, ih (a ++ f x)]

/-- Flat maps of pointwise equal functions agree. -/
theorem flatMap_fun_congr (l : List α) (f g : α → List β)
    (h : ∀ a, f a = g a) : l.flatMap f = l.flatMap g := by
  induction l with
  | nil => rfl
  | cons x t ih => simp [List.flatMap_cons, h x, ih]

/-- A flat map of a function that is everywhere empty is empty. -/
theorem flatMap_eq_nil_of (l : List α) (f : α → List β)
    (h : ∀ a, f a = []) : l.flatMap f = [] := by
  induction l with
  | nil => rfl
  | cons x t ih => simp [List.flatMap_cons, h x, ih]

/-- The sibling walk is a take-while on the remaining rows. -/
theorem walkRows_eq_takeWhile (l : List Row) :
    walkRows l = l.takeWhile (fun row => !row.mergedtoprow) := by
  induction l with
  | nil => rfl
  | cons r t ih =>
      by_cases h : r.mergedtoprow <;> simp [walkRows, List.takeWhile_cons, h, ih]

/-- One block is the header row followed by the take-while of its
following siblings. -/
theorem blockAt_eq_takeWhile (doc : List Row) (i : Nat) :
    blockAt doc i =
      (match doc.drop i with
       | [] => []
       | r :: rest => r :: rest.takeWhile (fun row => !row.mergedtoprow)) := by
  unfold blockAt
  cases doc.drop i <;> simp [walkRows_eq_takeWhile]

/-- `getValueByLabel` as a first-match selection: the result is a function
of the first flattened data cell whose trimmed text passes the test. -/
theorem getValueByLabel_eq_find (doc : List Row) (label : String)
    (regex : String → Bool) :
    getValueByLabel doc label regex =
      (match (flatCells doc label).find? (fun td => regex (jsTrim td)) with
       | none => none
       | some td =>
           if jsTrim td = "" then none
           else some (jsNumToString (jsParseFloat (stripCommas (jsTrim td))))) := by
  unfold getValueByLabel
  simp only [head?_filter_eq_find?]
  cases hf : (flatCells doc label).find? (fun td => regex (jsTrim td)) with
  | none => simp [hf]
  | some td => by_cases h : jsTrim td = "" <;> simp [hf, h]

/-- If no header cell anywhere contains the label, no header row is
selected. -/
theorem selectedHeaderRows_eq_nil (doc : List Row) (label : String)
    (h : ∀ r ∈ doc, ∀ t ∈ r.ths, textIncludes t label = false) :
    selectedHeaderRows doc label = [] := by
  unfold selectedHeaderRows
  apply flatMap_eq_nil_of
  intro i
  cases hg : doc[i]? with
  | none => rfl
  | some row =>
      have hrow : row ∈ doc := by
        obtain ⟨hlt, hEq⟩ := List.getElem?_eq_some_iff.mp hg
        exact hEq ▸ List.getElem_mem hlt
      by_cases hm : row.mergedtoprow
      · have : row.ths.filter (fun t => textIncludes t label) = [] := by
          rw [List.filter_eq_nil_iff]
          intro t ht
          simp [h row hrow t ht]
        simp [hm, this]
      · simp [hm]

/-- The loop of `scrapeCountries` appends, for each country in turn, the
one record of its capital when a capital link exists, and nothing
otherwise. -/
theorem scrapeLoop_spec (w : World) :
    ∀ (cs : List Country) (s : ScraperState) (acc : List CityDetails),
      ∃ s', scrapeLoop w cs s acc =
        Except.ok (acc ++ cs.filterMap (countryRecord w), s') := by
  intro cs
  induction cs with
  | nil => intro s acc; exact ⟨s, by simp [scrapeLoop]⟩
  | cons c rest ih =>
      intro s acc
      cases hcl : capitalCityLink (w.pages c.countryUrl).countryRows with
      | none =>
          obtain ⟨s', hs⟩ := ih ⟨some c.countryUrl⟩ acc
          refine ⟨s', ?_⟩
          simp [scrapeLoop, hcl, List.filterMap_cons, countryRecord, hs]
      | some link =>
          obtain ⟨s', hs⟩ :=
            ih ⟨some link.href⟩ (acc ++ [cityDetailsOf w ⟨link.text, link.href, none⟩ c])
          refine ⟨s', ?_⟩
          simp only [cityDetailsOf] at hs
          simp [scrapeLoop, hcl, scrapeCityDetails, List.filterMap_cons,
            countryRecord, cityDetailsOf, hs]

/-! ## Concrete fixture documents and worlds -/

/-- An empty page: no anchors, no infobox rows, no flag. -/
def emptyDoc : Document := ⟨[], [], [], none⟩

/-- A world where every URL shows the empty page. -/
def emptyWorld : World := ⟨fun _ => emptyDoc⟩

/-- A data cell that matches the population pattern (commas and dots are
in its character class) but has no digits, so `parseFloat` fails on it. -/
def exNaNDoc : List Row := [⟨true, ["Population"], [",,"]⟩]

/-- The anchor of the second Capital row of `exCapRows`. -/
def exCapAnchor : Anchor := ⟨"Berlin", "https://en.wikipedia.org/wiki/Berlin"⟩

/-- Two infobox rows whose text contains "Capital": the first has no
anchor in its data cell, the second has one. -/
def exCapRows : List CRow :=
  [⟨"Capital and largest city", none⟩, ⟨"Capital Berlin", some exCapAnchor⟩]

/-- The spec's area fixture: an Area section header row followed by a
plain row holding the area figure. -/
def areaDoc : List Row :=
  [⟨true, ["Area"], []⟩, ⟨false, [], ["357,021 km2 (137,847 sq mi)"]⟩]

/-- The spec's population fixture with a parenthesised annotation. -/
def popDoc : List Row :=
  [⟨true, ["Population"], []⟩, ⟨false, [], ["83,166,711 (2021 estimate)"]⟩]

/-- The spec's bare population fixture, the figure in the header row. -/
def popDoc2 : List Row := [⟨true, ["Population"], ["1,234,567"]⟩]

/-- A list page with two countries. -/
def demoListDoc : Document :=
  ⟨[⟨"France", "france"⟩, ⟨"Nowhere", "nowhere"⟩], [], [], none⟩

/-- A country page whose infobox names Paris as capital. -/
def demoFranceDoc : Document :=
  ⟨[], [⟨"Capital Paris", some ⟨"Paris", "paris"⟩⟩], [], none⟩

/-- A capital page with a population figure and a flag. -/
def demoParisDoc : Document :=
  ⟨[], [], [⟨true, ["Population"], ["2,102,650"]⟩], some "flag.svg"⟩

/-- A fixture world: the list page shows two countries, France yields a
capital link, Nowhere's page has no Capital row. -/
def demoWorld : World :=
  ⟨fun u =>
    if u = startUrl then demoListDoc
    else if u = "france" then demoFranceDoc
    else if u = "paris" then demoParisDoc
    else emptyDoc⟩

/-! ## The claims -/

/-- C1 (counterexample): on the fixture `exNaNDoc` the first (and only)
data cell `",,"` matches the population pattern, comma-stripping leaves
the empty string, and `parseFloat` fails (NaN) — yet `getValueByLabel`
returns the string "NaN", not absence, refuting the claim that a numeric
parsing failure surfaces as `undefined`. -/
theorem claim_C1_counterexample :
    getValueByLabel exNaNDoc "Population" populationTest = some "NaN" ∧
    jsParseFloat (stripCommas (jsTrim ",,")) = JSNum.nan :=
  ⟨rfl, rfl⟩

/-- C1 (amended): for every document, label and value pattern,
`getValueByLabel` returns absent when no collected data cell matches the
pattern (and when the matched cell's trimmed text is empty); but when the
first matching cell's text fails numeric parsing it returns the string
"NaN" rather than absent.  It never returns a value carried over from a
previous call (it is a function of the current document alone). -/
theorem claim_C1_amended (doc : List Row) (label : String)
    (regex : String → Bool) :
    ((flatCells doc label).find? (fun td => regex (jsTrim td)) = none →
      getValueByLabel doc label regex = none) ∧
    (∀ td, (flatCells doc label).find? (fun td => regex (jsTrim td)) = some td →
      jsTrim td = "" → getValueByLabel doc label regex = none) ∧
    (∀ td, (flatCells doc label).find? (fun td => regex (jsTrim td)) = some td →
      jsTrim td ≠ "" → jsParseFloat (stripCommas (jsTrim td)) = JSNum.nan →
      getValueByLabel doc label regex = some "NaN") := by
  refine ⟨?_, ?_, ?_⟩
  · intro h
    rw [getValueByLabel_eq_find, h]
  · intro td h htrim
    rw [getValueByLabel_eq_find, h]
    simp [htrim]
  · intro td h htrim hnan
    rw [getValueByLabel_eq_find, h]
    simp [htrim, hnan, jsNumToString]

/-- C1 (witness): the amended claim evaluated on an empty document (no
match, absent) and on `exNaNDoc` (parse failure, "NaN"). -/
theorem claim_C1_witness :
    getValueByLabel [] "Area" areaTest = none ∧
    getValueByLabel exNaNDoc "Population" populationTest = some "NaN" :=
  ⟨(claim_C1_amended [] "Area" areaTest).1 rfl,
   (claim_C1_amended exNaNDoc "Population" populationTest).2.2 ",," rfl
     (by decide) rfl⟩

/-- C2 (counterexample): on `exCapRows` the first row containing
"Capital" has no anchor in its data cell, yet the extraction returns the
second matching row's anchor instead of absence — refuting the claim that
the first matching row alone determines the result. -/
theorem claim_C2_counterexample :
    capitalCityLink exCapRows = some exCapAnchor ∧
    (exCapRows.filter (fun tr => textIncludes tr.text "Capital")).head? =
      some ⟨"Capital and largest city", none⟩ ∧
    CRow.dataAnchor ⟨"Capital and largest city", none⟩ = none :=
  ⟨rfl, rfl, rfl⟩

/-- C2 (amended): for every country page, the capital-link extraction
returns the data-cell anchor of the first row, among those whose text
contains "Capital", that actually has such an anchor; absence results
exactly when no row containing "Capital" has an anchor in its data cell
(in particular when no row contains "Capital" at all). -/
theorem claim_C2_amended (rows : List CRow) :
    capitalCityLink rows =
      ((rows.filter (fun tr => textIncludes tr.text "Capital")).filterMap
        CRow.dataAnchor).head? := by
  unfold capitalCityLink
  generalize rows.filter (fun tr => textIncludes tr.text "Capital") = l
  induction l with
  | nil => rfl
  | cons a t ih =>
      cases h : a.dataAnchor with
      | none =>
          simpa [List.map_cons, List.find?_cons, List.filterMap_cons, h] using ih
      | some b => simp [List.map_cons, List.find?_cons, List.filterMap_cons, h]

/-- C3: for every document, label and value pattern, the extraction
result is a function of the first cell, in the flattened block cell
sequence, whose trimmed text matches the pattern — later matching cells
are ignored, and no cell matching means absence. -/
theorem claim_C3 (doc : List Row) (label : String) (regex : String → Bool) :
    getValueByLabel doc label regex =
      (match (flatCells doc label).find? (fun td => regex (jsTrim td)) with
       | none => none
       | some td =>
           if jsTrim td = "" then none
           else some (jsNumToString (jsParseFloat (stripCommas (jsTrim td))))) :=
  getValueByLabel_eq_find doc label regex

/-- C4: for every document and label, the collected rows are exactly, for
each selected header cell in order, the header's enclosing row followed by
the contiguous following sibling rows up to (not including) the next row
carrying the `mergedtoprow` marker — the header row always included, the
walk stopping at the end of the siblings. -/
theorem claim_C4 (doc : List Row) (label : String) :
    collectRows doc label =
      (selectedHeaderRows doc label).flatMap (fun i =>
        match doc.drop i with
        | [] => []
        | r :: rest => r :: rest.takeWhile (fun row => !row.mergedtoprow)) := by
  unfold collectRows
  rw [foldl_append_eq_flatMap]
  rw [List.nil_append]
  exact flatMap_fun_congr _ _ _ (blockAt_eq_takeWhile doc)

/-- C5: the three normalization examples of the spec, computed on fixture
documents, plus the round-trip of the returned population string. -/
theorem claim_C5 :
    getArea areaDoc = some "357021" ∧
    getPopulation popDoc = some "83166711" ∧
    getPopulation popDoc2 = some "1234567" ∧
    jsParseFloat "1234567" = jsParseFloat (stripCommas "1,234,567") :=
  ⟨rfl, rfl, rfl, rfl⟩

/-- C6: with an initialized page, `scrapeCountries` succeeds and its
output is, in order, one record per country whose page yields a capital
link (a country without one is skipped and the loop continues); hence the
output length is at most the number of countries. -/
theorem claim_C6 (w : World) (s : ScraperState) (u : String)
    (h : s.pageUrl = some u) :
    ∃ s', scrapeCountries w s =
        Except.ok ((buildCountries (w.pages u)).filterMap (countryRecord w), s')
      ∧ ((buildCountries (w.pages u)).filterMap (countryRecord w)).length
          ≤ (buildCountries (w.pages u)).length := by
  obtain ⟨p⟩ := s
  simp only at h
  subst h
  obtain ⟨s', hs⟩ := scrapeLoop_spec w (buildCountries (w.pages u)) ⟨some u⟩ []
  exact ⟨s', by simpa [scrapeCountries] using hs,
    List.length_filterMap_le _ _⟩

/-- C6 (witness): the fixture world with two countries, one of which has
no capital link. -/
theorem claim_C6_witness :
    ∃ s', scrapeCountries demoWorld ⟨some startUrl⟩ =
        Except.ok ((buildCountries (demoWorld.pages startUrl)).filterMap
          (countryRecord demoWorld), s')
      ∧ ((buildCountries (demoWorld.pages startUrl)).filterMap
          (countryRecord demoWorld)).length
          ≤ (buildCountries (demoWorld.pages startUrl)).length :=
  claim_C6 demoWorld ⟨some startUrl⟩ startUrl rfl

/-- C7: for every document and value pattern, when the label occurs in no
header cell anywhere in the document, the extraction returns absent. -/
theorem claim_C7 (doc : List Row) (label : String) (regex : String → Bool)
    (h : ∀ r ∈ doc, ∀ t ∈ r.ths, textIncludes t label = false) :
    getValueByLabel doc label regex = none := by
  have hsel := selectedHeaderRows_eq_nil doc label h
  simp [getValueByLabel, flatCells, collectRows, hsel]

/-- C7 (witness): a document whose only header cell says "Population"
yields nothing for the label "Area". -/
theorem claim_C7_witness :
    getValueByLabel [⟨true, ["Population"], ["5"]⟩] "Area" areaTest = none :=
  claim_C7 _ _ _ (by decide)

/-- C8: a full run (`init` then `scrapeCountries`) is a function of the
fetched documents alone: whatever page state either run starts from —
including the state left behind by a previous run — the result is
identical, so running the same fixed world twice gives identical output
sequences. -/
theorem claim_C8 (w : World) (s t : ScraperState) :
    runScrape w s = runScrape w t :=
  rfl

/-- C9: invoked before initialization (`page` is null), both
`scrapeCountries` and `scrapeCityDetails` throw the initialization error;
the error carries no partial output and nothing is retried. -/
theorem claim_C9 (w : World) (s : ScraperState) (capitalCity : City)
    (country : Country) (h : s.pageUrl = none) :
    scrapeCountries w s = Except.error "Page is not initialized." ∧
    scrapeCityDetails w s capitalCity country =
      Except.error "Page is not initialized." := by
  obtain ⟨p⟩ := s
  simp only at h
  subst h
  exact ⟨rfl, rfl⟩

/-- C9 (witness): the uninitialized state on a concrete world. -/
theorem claim_C9_witness :
    scrapeCountries emptyWorld ⟨none⟩ = Except.error "Page is not initialized." ∧
    scrapeCityDetails emptyWorld ⟨none⟩ ⟨"Paris", "paris", none⟩
        ⟨"France", "france"⟩ =
      Except.error "Page is not initialized." :=
  claim_C9 emptyWorld ⟨none⟩ ⟨"Paris", "paris", none⟩ ⟨"France", "france"⟩ rfl

/-- C10: with an initialized page, `scrapeCityDetails` always returns
exactly one record — never null, never an empty list, never more than one
— assembled from whatever the capital page offers, each of area,
population and flag possibly absent. -/
theorem claim_C10 (w : World) (s : ScraperState) (u : String)
    (capitalCity : City) (country : Country) (h : s.pageUrl = some u) :
    scrapeCityDetails w s capitalCity country =
      Except.ok (some [cityDetailsOf w capitalCity country],
        ⟨some capitalCity.cityUrl⟩) := by
  obtain ⟨p⟩ := s
  simp only at h
  subst h
  rfl

/-- C10 (witness): on the empty world the record is still emitted, with
area, population and flag reference all absent. -/
theorem claim_C10_witness :
    scrapeCityDetails emptyWorld ⟨some startUrl⟩ ⟨"Paris", "paris", none⟩
        ⟨"France", "france"⟩ =
      Except.ok (some [⟨"Paris", "paris", some "France", none, none, none⟩],
        ⟨some "paris"⟩) :=
  claim_C10 emptyWorld ⟨some startUrl⟩ startUrl ⟨"Paris", "paris", none⟩
    ⟨"France", "france"⟩ rfl

end Scraper
